import Mathlib

/-!
Verification of the monitoring/profiling subsystem of the mysql_practice
repository (`src/monitoring/database_monitor.py` together with the connection
wrapper in `src/config/database.py`).

The Python code is shallowly embedded: dictionary-shaped rows become an
inductive `Row` type over an inductive `Value` type, fallible operations
return `Except Exc`, and the outcomes of the external database and OS calls
are supplied through explicit environment records (`DbEnv`, `IterEnv`,
`ProfEnv`).  Exceptions are modelled by the `Exc` type, where the
constructor `mysqlError` plays the role of `mysql.connector.Error` (the only
exception class the code catches selectively); all constructors together
play the role of Python's `Exception`.
-/

namespace MysqlMonitor

/-- A Python value as it appears in result rows: an int, a str, or None. -/
inductive Value where
  | vInt (i : Int)
  | vStr (s : String)
  | vNull
deriving DecidableEq

/-- Exception taxonomy used by the monitoring code.  `mysqlError` models
`mysql.connector.Error`; the remaining constructors model non-`Error`
exceptions (`ValueError`, `TypeError`, `KeyError`, anything else). -/
inductive Exc where
  | mysqlError (msg : String)
  | valueError (msg : String)
  | typeError (msg : String)
  | keyError (msg : String)
  | otherError (msg : String)
deriving DecidableEq

instance {ε α : Type} [DecidableEq ε] [DecidableEq α] : DecidableEq (Except ε α) :=
  fun x y =>
    match x, y with
    | .ok a, .ok b =>
        if h : a = b then .isTrue (by rw [h]) else .isFalse (fun hc => h (Except.ok.inj hc))
    | .error a, .error b =>
        if h : a = b then .isTrue (by rw [h])
        else .isFalse (fun hc => h (Except.error.inj hc))
    | .ok _, .error _ => .isFalse (fun hc => Except.noConfusion hc)
    | .error _, .ok _ => .isFalse (fun hc => Except.noConfusion hc)

/-- Whether an exception is caught by `except Error`. -/
def isMySQLError : Exc → Bool
  | .mysqlError _ => true
  | _ => false

/-- `str(e)` for an exception. -/
def excMsg : Exc → String
  | .mysqlError m => m
  | .valueError m => m
  | .typeError m => m
  | .keyError m => m
  | .otherError m => m

/-- `str(v)` for a value (Python `str`). -/
def pyStr : Value → String
  | .vInt i => toString i
  | .vStr s => s
  | .vNull => "None"

/-- Digits of a decimal literal folded into a natural number. -/
def natOfDigits (l : List Char) : Nat :=
  l.foldl (fun a c => a * 10 + (c.toNat - 48)) 0

/-- Python `int(s)` on a string: optional surrounding spaces, optional
sign, then a nonempty digit run; anything else raises `ValueError`
(modelled as `none`). -/
def pyIntOfString (s : String) : Option Int :=
  let l := ((s.toList.dropWhile (· == ' ')).reverse.dropWhile (· == ' ')).reverse
  let p : Bool × List Char :=
    match l with
    | '-' :: r => (true, r)
    | '+' :: r => (false, r)
    | r => (false, r)
  if p.2.isEmpty || !(p.2.all Char.isDigit) then none
  else some (if p.1 then -(natOfDigits p.2 : Int) else (natOfDigits p.2 : Int))

/-- Python `float(s)` on a string, restricted to plain decimal literals:
optional sign, integer part, optional fractional part (the rational value
is assembled with `mkRat` over integer arithmetic). -/
def pyFloatOfString (s : String) : Option ℚ :=
  let l := ((s.toList.dropWhile (· == ' ')).reverse.dropWhile (· == ' ')).reverse
  let p : Bool × List Char :=
    match l with
    | '-' :: r => (true, r)
    | '+' :: r => (false, r)
    | r => (false, r)
  let signed : Int → Int := fun i => if p.1 then -i else i
  let ip := p.2.takeWhile Char.isDigit
  let rest := p.2.drop ip.length
  match rest with
  | [] => if ip.isEmpty then none else some (mkRat (signed (natOfDigits ip)) 1)
  | '.' :: fr =>
      if fr.all Char.isDigit && !(ip.isEmpty && fr.isEmpty) then
        some (mkRat (signed (natOfDigits ip * 10 ^ fr.length + natOfDigits fr))
          (10 ^ fr.length))
      else none
  | _ => none

/-- Python `int(v)`: ints pass through, strings are parsed (raising
`ValueError` on failure), `None` raises `TypeError`. -/
def pyInt : Value → Except Exc Int
  | .vInt i => .ok i
  | .vStr s =>
      match pyIntOfString s with
      | some i => .ok i
      | none => .error (.valueError "invalid literal for int")
  | .vNull => .error (.typeError "int argument must not be None")

/-- Python `float(v)`. -/
def pyFloat : Value → Except Exc ℚ
  | .vInt i => .ok (i : ℚ)
  | .vStr s =>
      match pyFloatOfString s with
      | some q => .ok q
      | none => .error (.valueError "could not convert string to float")
  | .vNull => .error (.typeError "float argument must not be None")

/-- Python `s.upper()` (ASCII, as in the SQL text this code handles). -/
def pyUpper (s : String) : String :=
  String.mk (s.data.map Char.toUpper)

/-- Python `s.strip()`. -/
def pyStrip (s : String) : String :=
  String.mk (((s.data.dropWhile Char.isWhitespace).reverse.dropWhile
    Char.isWhitespace).reverse)

/-- Python `s.startswith(pat)`. -/
def pyStartsWith (s pat : String) : Bool :=
  pat.data.isPrefixOf s.data

/-- Does `pat` occur as a contiguous substring of `l` (Python `in`)? -/
def subOccurs (pat : List Char) : List Char → Bool
  | [] => pat.isEmpty
  | c :: t => pat.isPrefixOf (c :: t) || subOccurs pat t

/-- Python `pat in s` on strings. -/
def strContains (s pat : String) : Bool :=
  subOccurs pat.toList s.toList

/-- Python `s.count("JOIN")`: number of non-overlapping occurrences. -/
def countJoin : List Char → Nat
  | 'J' :: 'O' :: 'I' :: 'N' :: t => 1 + countJoin t
  | _ :: t => countJoin t
  | [] => 0

/-- A result row from the MySQL connector: a dict (the `dictionary=True`
cursor) or a plain tuple. -/
inductive Row where
  | dictRow (entries : List (String × Value))
  | tupleRow (entries : List Value)
deriving DecidableEq

/-- Python `row.get(k)` on a dict row's entries. -/
def dictGet (es : List (String × Value)) (k : String) : Option Value :=
  (es.find? (fun p => decide (p.1 = k))).map (fun p => p.2)

/-- Outcome of one raw cursor operation in the environment: either the
fetched rows or a raised exception. -/
inductive ExecOutcome where
  | rows (rs : List Row)
  | raises (e : Exc)
deriving DecidableEq

/-- `MySQLConnection.execute_query` (src/config/database.py): returns the
fetched rows, absorbs `mysql.connector.Error` into a `None` result, and
lets any other exception propagate. -/
def execute_query (o : ExecOutcome) : Except Exc (Option (List Row)) :=
  match o with
  | .rows rs => .ok (some rs)
  | .raises e => if isMySQLError e then .ok none else .error e

/-- The `database` section of a metric snapshot.  A field holding `none`
models a key absent from the Python dict; `some .vNull` inside
`buffer_pool_size` models a key present with value `None`. -/
structure DbSection where
  connections : Option Int := none
  queries_per_second : Option ℚ := none
  slow_queries : Option Int := none
  uptime : Option Int := none
  active_processes : Option Nat := none
  buffer_pool_size : Option Value := none
  buffer_pool_pages_data : Option Int := none
  buffer_pool_pages_total : Option Int := none
  status : Option String := none
  error : Option String := none
deriving DecidableEq

/-- The `system` section of a metric snapshot. -/
structure SysSection where
  cpu_percent : Option ℚ := none
  memory_percent : Option ℚ := none
  disk_percent : Option ℚ := none
  load_average : Option (Option (List ℚ)) := none
  error : Option String := none
deriving DecidableEq

/-- One metric snapshot, as built by `get_database_metrics`. -/
structure Metrics where
  timestamp : String
  database : DbSection := {}
  system : SysSection := {}
deriving DecidableEq

/-- Environment describing the outcomes of all external calls that one
`get_database_metrics` invocation performs. -/
structure DbEnv where
  timestamp : String
  connectOk : Bool
  showStatus : ExecOutcome
  showProcesslist : ExecOutcome
  showInnodb : ExecOutcome
  disconnectExc : Option Exc
  cpuPercent : Except Exc ℚ
  memPercent : Except Exc ℚ
  diskPercent : Except Exc ℚ
  loadAvg : Except Exc (Option (List ℚ))

/-- Python dict assignment `m[k] = v` on an association list. -/
def assocSet (m : List (Value × Value)) (k v : Value) : List (Value × Value) :=
  if m.any (fun p => decide (p.1 = k)) then
    m.map (fun p => if p.1 = k then (k, v) else p)
  else m ++ [(k, v)]

/-- One iteration of the `SHOW STATUS` row loop (lines 129-141): dict rows
carrying `Variable_name`/`Value` keys populate the mapping, otherwise a
dict row with at least two keys contributes its first key/value pair
(stringified); non-dict rows are skipped. -/
def statusVarStep (sv : List (Value × Value)) (r : Row) : List (Value × Value) :=
  match r with
  | .dictRow es =>
      if (es.any (fun p => decide (p.1 = "Variable_name"))) &&
         (es.any (fun p => decide (p.1 = "Value"))) then
        assocSet sv ((dictGet es "Variable_name").getD .vNull)
          ((dictGet es "Value").getD .vNull)
      else if es.length ≥ 2 then
        match es with
        | p :: _ => assocSet sv (.vStr p.1) (.vStr (pyStr p.2))
        | [] => sv
      else sv
  | .tupleRow _ => sv

/-- The `status_vars` mapping accumulated from the `SHOW STATUS` rows. -/
def buildStatusVars (rows : List Row) : List (Value × Value) :=
  rows.foldl statusVarStep []

/-- `status_vars.get(k, d)` with a string key. -/
def svGetD (sv : List (Value × Value)) (k : String) (d : Value) : Value :=
  (((sv.find? (fun p => decide (p.1 = Value.vStr k))).map (fun p => p.2)).getD d)

/-- `status_vars.get(k)` with a string key (default `None`). -/
def svGet (sv : List (Value × Value)) (k : String) : Option Value :=
  ((sv.find? (fun p => decide (p.1 = Value.vStr k))).map (fun p => p.2))

/-- The `status_vars` mapping as determined by the `SHOW STATUS` outcome
(empty when the query yielded no truthy result). -/
def statusVarsOf (env : DbEnv) : List (Value × Value) :=
  match execute_query env.showStatus with
  | .ok (some rows) => buildStatusVars rows
  | _ => []

/-- The `SHOW PROCESSLIST` step (lines 144-152): runs the query, and its
own `except Error` clause substitutes an empty list on an access-denied
error and re-raises other `Error`s; a falsy result becomes `[]`. -/
def processlistStep (o : ExecOutcome) : Except Exc (List Row) :=
  match execute_query o with
  | .ok r =>
      .ok (match r with
           | some rs => rs
           | none => [])
  | .error e =>
      match e with
      | .mysqlError msg =>
          if strContains msg "Access denied" then .ok [] else .error (.mysqlError msg)
      | _ => .error e

/-- The `SHOW ENGINE INNODB STATUS` step (lines 155-163): its result is
discarded and every `Error` is swallowed (warning only); non-`Error`
exceptions propagate. -/
def innodbStep (o : ExecOutcome) : Except Exc Unit :=
  match execute_query o with
  | .ok _ => .ok ()
  | .error e =>
      match e with
      | .mysqlError _ => .ok ()
      | _ => .error e

/-- Construction of the `metrics["database"]` dict literal (lines 165-179)
from the status variables and the process list length; each `int()` /
`float()` conversion can raise. -/
def dbSectionOfVars (sv : List (Value × Value)) (nproc : Nat) : Except Exc DbSection :=
  match pyInt (svGetD sv "Threads_connected" (.vInt 0)) with
  | .error e => .error e
  | .ok conn =>
  match pyFloat (svGetD sv "Queries" (.vInt 0)) with
  | .error e => .error e
  | .ok qps =>
  match pyInt (svGetD sv "Slow_queries" (.vInt 0)) with
  | .error e => .error e
  | .ok slow =>
  match pyInt (svGetD sv "Uptime" (.vInt 0)) with
  | .error e => .error e
  | .ok up =>
  match pyInt (svGetD sv "Innodb_buffer_pool_pages_data" (.vInt 0)) with
  | .error e => .error e
  | .ok bpd =>
  match pyInt (svGetD sv "Innodb_buffer_pool_pages_total" (.vInt 0)) with
  | .error e => .error e
  | .ok bpt =>
      .ok { connections := some conn,
            queries_per_second := some qps,
            slow_queries := some slow,
            uptime := some up,
            active_processes := some nproc,
            buffer_pool_size := some ((svGet sv "Innodb_buffer_pool_size").getD .vNull),
            buffer_pool_pages_data := some bpd,
            buffer_pool_pages_total := some bpt,
            status := some "connected",
            error := none }

/-- The `try` block of `get_database_metrics` (lines 120-181).  On success
it yields the fully populated database section together with the
opened/closed flags of the session; a raised exception carries the
database dict as it stood at that moment plus the same flags. -/
def collectTry (env : DbEnv) :
    Except (Exc × DbSection × Bool × Bool) (DbSection × Bool × Bool) :=
  if env.connectOk then
    match execute_query env.showStatus with
    | .error e => .error (e, {}, true, false)
    | .ok _ =>
      match processlistStep env.showProcesslist with
      | .error e => .error (e, {}, true, false)
      | .ok plist =>
        match innodbStep env.showInnodb with
        | .error e => .error (e, {}, true, false)
        | .ok _ =>
          match dbSectionOfVars (statusVarsOf env) plist.length with
          | .error e => .error (e, {}, true, false)
          | .ok dbFull =>
            match env.disconnectExc with
            | none => .ok (dbFull, true, true)
            | some e => .error (e, dbFull, true, false)
  else
    .error (.mysqlError "Failed to connect to database", {}, false, false)

/-- The system-metrics block (lines 193-204): the dict literal is built
from four provider calls in order; the first failure leaves the section
holding only the error message. -/
def systemSectionOf (env : DbEnv) : SysSection :=
  match env.cpuPercent with
  | .error e => { error := some (excMsg e) }
  | .ok cpu =>
    match env.memPercent with
    | .error e => { error := some (excMsg e) }
    | .ok mem =>
      match env.diskPercent with
      | .error e => { error := some (excMsg e) }
      | .ok disk =>
        match env.loadAvg with
        | .error e => { error := some (excMsg e) }
        | .ok la =>
            { cpu_percent := some cpu,
              memory_percent := some mem,
              disk_percent := some disk,
              load_average := some la,
              error := none }

/-- Result of `get_database_metrics` together with the session bookkeeping
used to audit the open/close side effect. -/
structure GdmResult where
  metrics : Metrics
  sessionOpened : Bool
  sessionClosed : Bool
deriving DecidableEq

/-- The two `except` handlers of `get_database_metrics`: record the
exception message and overwrite the status. -/
def degradeSection (d : DbSection) (e : Exc) (st : String) : DbSection :=
  { d with error := some (excMsg e), status := some st }

/-- `DatabaseMonitor.get_database_metrics` (lines 112-206): runs the
collection body, converts an `Error` into a `disconnected` snapshot and
any other exception into an `error` snapshot, then attaches the system
section. -/
def get_database_metrics (env : DbEnv) : GdmResult :=
  match collectTry env with
  | .ok (d, o, c) =>
      { metrics := { timestamp := env.timestamp, database := d,
                     system := systemSectionOf env },
        sessionOpened := o, sessionClosed := c }
  | .error (e, d, o, c) =>
      if isMySQLError e then
        { metrics := { timestamp := env.timestamp,
                       database := degradeSection d e "disconnected",
                       system := systemSectionOf env },
          sessionOpened := o, sessionClosed := c }
      else
        { metrics := { timestamp := env.timestamp,
                       database := degradeSection d e "error",
                       system := systemSectionOf env },
          sessionOpened := o, sessionClosed := c }

/-- The alert threshold mapping built in `DatabaseMonitor.__init__`
(lines 37-43). -/
structure Thresholds where
  connection_count : Int := 100
  slow_query_time : ℚ := 5
  cpu_usage : ℚ := 80
  memory_usage : ℚ := 85
  disk_usage : ℚ := 90
deriving DecidableEq

/-- The threshold values hardcoded in the constructor. -/
def defaultThresholds : Thresholds := {}

/-- The mutable state of a `DatabaseMonitor` instance. -/
structure MonitorState where
  log_dir : String
  monitoring : Bool
  alert_thresholds : Thresholds
  metrics : List Metrics
  max_metrics : Nat
deriving DecidableEq

/-- `DatabaseMonitor.__init__` (lines 23-47): the only constructor
parameter is `log_dir` (with the directory-creation outcome `mkdirOk`
deciding the fallback to `"."`); thresholds, buffer and capacity are set
to fixed values. -/
def initMonitor (log_dir : String) (mkdirOk : Bool) : MonitorState :=
  { log_dir := if mkdirOk then log_dir else ".",
    monitoring := true,
    alert_thresholds := defaultThresholds,
    metrics := [],
    max_metrics := 1000 }

/-- The JSON record written by `log_query` (lines 96-103). -/
structure QueryInfo where
  query : String
  execution_time : ℚ
  rows_affected : Int
  slow_query : Bool
deriving DecidableEq

/-- `DatabaseMonitor.log_query` (lines 88-110): builds the query record
(flagging it slow when the execution time strictly exceeds the
`slow_query_time` threshold) and leaves the monitor state untouched. -/
def log_query (st : MonitorState) (query : String) (execution_time : ℚ)
    (rows_affected : Int) : QueryInfo × MonitorState :=
  ({ query := pyStrip query,
     execution_time := execution_time,
     rows_affected := rows_affected,
     slow_query := execution_time > st.alert_thresholds.slow_query_time }, st)

/-- One alert emitted by `check_alerts`, tagged with the offending
metric's raw value (the formatted message interpolates exactly that
value). -/
inductive Alert where
  | highConnections (n : Int)
  | highCpu (q : ℚ)
  | highMemory (q : ℚ)
  | highDisk (q : ℚ)
deriving DecidableEq

/-- One threshold check of `check_alerts`: compares the defaulted value
against the threshold and, when breached, formats the alert from the
present value (direct `[]` access, a `KeyError` if the key is absent). -/
def gatedAlert {α : Type} (v : Option α) (d : α) (p : α → Prop) [DecidablePred p]
    (mk : α → Alert) (key : String) : Except Exc (List Alert) :=
  if p (v.getD d) then
    match v with
    | some x => .ok [mk x]
    | none => .error (.keyError key)
  else .ok []

/-- `DatabaseMonitor.check_alerts` (lines 208-232): four independent
checks in the fixed order connections, cpu, memory, disk, each firing iff
the defaulted metric value strictly exceeds its threshold. -/
def check_alerts (st : MonitorState) (m : Metrics) : Except Exc (List Alert) :=
  match gatedAlert m.database.connections 0
      (fun n => n > st.alert_thresholds.connection_count) Alert.highConnections
      "connections" with
  | .error e => .error e
  | .ok a1 =>
  match gatedAlert m.system.cpu_percent 0
      (fun q => q > st.alert_thresholds.cpu_usage) Alert.highCpu "cpu_percent" with
  | .error e => .error e
  | .ok a2 =>
  match gatedAlert m.system.memory_percent 0
      (fun q => q > st.alert_thresholds.memory_usage) Alert.highMemory
      "memory_percent" with
  | .error e => .error e
  | .ok a3 =>
  match gatedAlert m.system.disk_percent 0
      (fun q => q > st.alert_thresholds.disk_usage) Alert.highDisk "disk_percent" with
  | .error e => .error e
  | .ok a4 => .ok (a1 ++ a2 ++ a3 ++ a4)

/-- The in-memory half of `save_metrics` (lines 236-239): append, then
pop the head when the buffer exceeds `max_metrics`. -/
def save_metrics_mem (buf : List Metrics) (maxM : Nat) (m : Metrics) : List Metrics :=
  if (buf ++ [m]).length > maxM then (buf ++ [m]).drop 1 else buf ++ [m]

/-- `DatabaseMonitor.save_metrics` as a state transformer (the file
append has no effect on monitor state; its possible failure is supplied
by the loop environment). -/
def save_metrics (st : MonitorState) (m : Metrics) : MonitorState :=
  { st with metrics := save_metrics_mem st.metrics st.max_metrics m }

/-- The summary log statement (lines 267-273): `:.1f` formatting of
`sys_metrics.get("cpu_percent", "N/A")` and of the memory value raises a
`ValueError` whenever the corresponding key is absent (the `"N/A"`
fallback string cannot be float-formatted). -/
def logSummary (m : Metrics) : Except Exc Unit :=
  match m.system.cpu_percent with
  | none => .error (.valueError "Unknown format code f for object of type str")
  | some _ =>
    match m.system.memory_percent with
    | none => .error (.valueError "Unknown format code f for object of type str")
    | some _ => .ok ()

/-- Environment of one `monitor_loop` iteration: the collector's
environment plus the outcome of the metrics-file append. -/
structure IterEnv where
  dbEnv : DbEnv
  saveFileExc : Option Exc

/-- The body of one loop iteration (lines 253-275): collect, check
alerts, save (memory first, then the fallible file append), log the
summary.  An error carries the monitor state as already mutated. -/
def monitorIterBody (st : MonitorState) (env : IterEnv) :
    Except (Exc × MonitorState) MonitorState :=
  let m := (get_database_metrics env.dbEnv).metrics
  match check_alerts st m with
  | .error e => .error (e, st)
  | .ok _alerts =>
    let st1 := save_metrics st m
    match env.saveFileExc with
    | some e => .error (e, st1)
    | none =>
      match logSummary m with
      | .error e => .error (e, st1)
      | .ok _ => .ok st1

/-- One full iteration of `monitor_loop` including its `except` clause
(lines 252-279): every exception is caught and logged, and both the
success and the failure path sleep exactly `interval` seconds (returned
as the second component). -/
def monitor_iter (st : MonitorState) (env : IterEnv) (interval : Nat) :
    MonitorState × Nat :=
  match monitorIterBody st env with
  | .ok st' => (st', interval)
  | .error (_e, st') => (st', interval)

/-- `DatabaseMonitor.monitor_loop` over a finite schedule of iteration
environments: the `while self.monitoring` flag is checked at the top of
each iteration; the second component counts executed iterations. -/
def monitor_loop (st : MonitorState) (envs : List IterEnv) (interval : Nat) :
    MonitorState × Nat :=
  match envs with
  | [] => (st, 0)
  | e :: rest =>
    if st.monitoring then
      let p := monitor_iter st e interval
      let q := monitor_loop p.1 rest interval
      (q.1, q.2 + 1)
    else (st, 0)

/-- `DatabaseMonitor.start_monitoring` (state effect only). -/
def start_monitoring (st : MonitorState) : MonitorState :=
  { st with monitoring := true }

/-- `DatabaseMonitor.stop_monitoring`. -/
def stop_monitoring (st : MonitorState) : MonitorState :=
  { st with monitoring := false }

/-- One optimization suggestion, tagged by which heuristic produced it
(the `largeRows` message interpolates the raw rows value). -/
inductive Suggestion where
  | slowExecution
  | noIndex
  | largeRows (v : Value)
  | dependentSubquery
  | selectStar
  | orderByNoLimit
  | manyJoins
deriving DecidableEq

/-- Field extraction from one EXPLAIN row (lines 432-443): dict rows use
`.get` with defaults `""`/`None`/`0`; tuple rows need length at least 5
and index positions 1, 5 and 8 with the same defaults; other rows are
skipped (`continue`). -/
def planRowFields : Row → Option (Value × Value × Value)
  | .dictRow es =>
      some ((dictGet es "select_type").getD (.vStr ""),
            (dictGet es "key").getD .vNull,
            (dictGet es "rows").getD (.vInt 0))
  | .tupleRow es =>
      if es.length ≥ 5 then
        some ((match es[1]? with
               | some v => .vStr (pyStr v)
               | none => .vStr ""),
              (es[5]?).getD .vNull,
              (es[8]?).getD (.vInt 0))
      else none

/-- The `rows examined` test (line 450): `isinstance(rows, (int, str))
and int(rows) > 10000`, where parsing a non-numeric string raises a
`ValueError` (modelled as `none`, which triggers the per-row
`continue`). -/
def rowsCheck : Value → Option Bool
  | .vInt i => some (decide (i > 10000))
  | .vStr s =>
      match pyIntOfString s with
      | some i => some (decide (i > 10000))
      | none => none
  | .vNull => some false

/-- Suggestions contributed by one EXPLAIN row (lines 430-461): the
null-key check, then the rows-examined check (whose `ValueError` aborts
the row but keeps what was already appended), then the
dependent-subquery check. -/
def rowSuggestions (r : Row) : List Suggestion :=
  match planRowFields r with
  | none => []
  | some (selType, key, rowsv) =>
    let s1 := if key = Value.vNull then [Suggestion.noIndex] else []
    match rowsCheck rowsv with
    | none => s1
    | some big =>
      let s2 := if big then [Suggestion.largeRows rowsv] else []
      let s3 := if strContains (pyStr selType) "DEPENDENT SUBQUERY" then
          [Suggestion.dependentSubquery] else []
      s1 ++ s2 ++ s3

/-- `QueryProfiler._get_optimization_suggestions` (lines 418-479):
execution-time heuristic, per-row EXPLAIN heuristics in plan order, then
the three textual heuristics over the uppercased query. -/
def get_optimization_suggestions (query : String) (execution_time : ℚ)
    (explain_plan : List Row) : List Suggestion :=
  (if execution_time > 1 then [Suggestion.slowExecution] else [])
  ++ (explain_plan.map rowSuggestions).flatten
  ++ (if strContains (pyUpper query) "SELECT *" then [Suggestion.selectStar] else [])
  ++ (if strContains (pyUpper query) "ORDER BY" &&
        !(strContains (pyUpper query) "LIMIT") then
        [Suggestion.orderByNoLimit] else [])
  ++ (if countJoin (pyUpper query).toList > 3 then [Suggestion.manyJoins] else [])

/-- The profile result dict (lines 393-402). -/
structure ProfileResult where
  query : String
  execution_time : ℚ
  rows_returned : Nat
  profile_details : List Row
  explain_plan : List Row
  optimization_suggestions : List Suggestion
deriving DecidableEq

/-- Environment for one `profile_query` call. -/
structure ProfEnv where
  connectOk : Bool
  setProfilingOn : ExecOutcome
  queryExec : ExecOutcome
  showProfiles : ExecOutcome
  showProfileDetail : ExecOutcome
  explainExec : ExecOutcome
  disconnectExc : Option Exc
  execTime : ℚ

/-- `profiles[-1].get("Query_ID") if isinstance(profiles[-1], dict) else
profiles[-1][0]` (lines 378-382): indexing an empty tuple raises. -/
def queryIdOfLast : Row → Except Exc Value
  | .dictRow es => .ok ((dictGet es "Query_ID").getD .vNull)
  | .tupleRow [] => .error (.otherError "tuple index out of range")
  | .tupleRow (v :: _) => .ok v

/-- The `try` body of `profile_query` (lines 364-409): enable profiling,
execute the query, fetch `SHOW PROFILES` and the per-query profile, fetch
the EXPLAIN plan for SELECT statements (its inner `except` absorbs every
failure into an empty plan), and assemble the result. -/
def profileBody (env : ProfEnv) (query : String) : Except Exc ProfileResult :=
  match execute_query env.setProfilingOn with
  | .error e => .error e
  | .ok _ =>
  match execute_query env.queryExec with
  | .error e => .error e
  | .ok results =>
  match execute_query env.showProfiles with
  | .error e => .error e
  | .ok profiles =>
    let detailsE : Except Exc (List Row) :=
      match (profiles.getD []).getLast? with
      | none => .ok []
      | some last =>
        match queryIdOfLast last with
        | .error e => .error e
        | .ok _qid =>
          match execute_query env.showProfileDetail with
          | .error e => .error e
          | .ok d => .ok (d.getD [])
    match detailsE with
    | .error e => .error e
    | .ok details =>
      let explain : List Row :=
        if pyStartsWith (pyUpper (pyStrip query)) "SELECT" then
          match execute_query env.explainExec with
          | .ok r => r.getD []
          | .error _ => []
        else []
      .ok { query := query,
            execution_time := env.execTime,
            rows_returned := (match results with
                              | some rs => rs.length
                              | none => 0),
            profile_details := details,
            explain_plan := explain,
            optimization_suggestions :=
              get_optimization_suggestions query env.execTime explain }

/-- Cleanup bookkeeping for one `profile_query` call. -/
structure ProfLog where
  opened : Bool
  profilingOffAttempted : Bool
  disconnectAttempted : Bool
deriving DecidableEq

/-- What `profile_query` hands back: the explicit connection-error dict
or a profile result. -/
inductive ProfOutcome where
  | connectError
  | result (r : ProfileResult)
deriving DecidableEq

/-- `QueryProfiler.profile_query` (lines 356-416): an initial connection
failure returns the error dict without any cleanup; otherwise the body
runs under a `finally` that first attempts `SET profiling = 0` (its own
`except` swallows everything) and then calls `disconnect` — an exception
raised by `disconnect` supersedes the body's outcome. -/
def profile_query (env : ProfEnv) (query : String) :
    Except Exc ProfOutcome × ProfLog :=
  if env.connectOk then
    match env.disconnectExc with
    | some e =>
        (.error e,
         { opened := true, profilingOffAttempted := true, disconnectAttempted := true })
    | none =>
        (match profileBody env query with
         | .ok r => .ok (.result r)
         | .error e => .error e,
         { opened := true, profilingOffAttempted := true, disconnectAttempted := true })
  else
    (.ok .connectError,
     { opened := false, profilingOffAttempted := false, disconnectAttempted := false })

/-- A snapshot whose only populated field is `connections`, used to build
distinguishable buffer entries. -/
def mkSnap (n : Int) : Metrics :=
  { timestamp := "", database := { connections := some n }, system := {} }

/-- Environment in which the server reports `Threads_connected = "-1"`
and everything else succeeds. -/
def badStatusEnv : DbEnv :=
  { timestamp := "t",
    connectOk := true,
    showStatus := .rows [Row.dictRow
      [("Variable_name", Value.vStr "Threads_connected"), ("Value", Value.vStr "-1")]],
    showProcesslist := .rows [],
    showInnodb := .rows [],
    disconnectExc := none,
    cpuPercent := .ok 10,
    memPercent := .ok 10,
    diskPercent := .ok 10,
    loadAvg := .ok none }

/-- Environment in which the server reports small positive values. -/
def goodEnv : DbEnv :=
  { timestamp := "t",
    connectOk := true,
    showStatus := .rows
      [Row.dictRow [("Variable_name", Value.vStr "Threads_connected"),
                    ("Value", Value.vStr "5")],
       Row.dictRow [("Variable_name", Value.vStr "Uptime"),
                    ("Value", Value.vStr "7")]],
    showProcesslist := .rows [],
    showInnodb := .rows [],
    disconnectExc := none,
    cpuPercent := .ok 10,
    memPercent := .ok 10,
    diskPercent := .ok 10,
    loadAvg := .ok none }

/-- Environment in which the initial connection fails. -/
def downEnv : DbEnv :=
  { timestamp := "t",
    connectOk := false,
    showStatus := .rows [],
    showProcesslist := .rows [],
    showInnodb := .rows [],
    disconnectExc := none,
    cpuPercent := .ok 10,
    memPercent := .ok 10,
    diskPercent := .ok 10,
    loadAvg := .ok none }

/-- Environment in which the connection opens but `SHOW STATUS` raises a
non-`Error` exception. -/
def leakEnv : DbEnv :=
  { timestamp := "t",
    connectOk := true,
    showStatus := .raises (.otherError "boom"),
    showProcesslist := .rows [],
    showInnodb := .rows [],
    disconnectExc := none,
    cpuPercent := .ok 10,
    memPercent := .ok 10,
    diskPercent := .ok 10,
    loadAvg := .ok none }

/-- Environment in which the OS metrics provider fails, so the snapshot's
system section carries only an error and the summary log line faults. -/
def sysFailIterEnv : IterEnv :=
  { dbEnv :=
    { timestamp := "t",
      connectOk := false,
      showStatus := .rows [],
      showProcesslist := .rows [],
      showInnodb := .rows [],
      disconnectExc := none,
      cpuPercent := .error (.otherError "psutil failure"),
      memPercent := .ok 10,
      diskPercent := .ok 10,
      loadAvg := .ok none },
    saveFileExc := none }

/-- Profiler environment whose profiled query raises a non-`Error`
exception. -/
def profFailEnv : ProfEnv :=
  { connectOk := true,
    setProfilingOn := .rows [],
    queryExec := .raises (.otherError "boom"),
    showProfiles := .rows [],
    showProfileDetail := .rows [],
    explainExec := .rows [],
    disconnectExc := none,
    execTime := 0 }

/-- A degraded snapshot carrying only status and error entries. -/
def degradedSnap : Metrics :=
  { timestamp := "t",
    database := { status := some "disconnected", error := some "down" },
    system := { error := some "psutil failure" } }

/-! ## Buffer lemmas (metrics store) -/

/-- One save preserves the capacity bound. -/
theorem save_metrics_mem_length_le (buf : List Metrics) (maxM : Nat) (m : Metrics)
    (h : buf.length ≤ maxM) : (save_metrics_mem buf maxM m).length ≤ maxM := by
  unfold save_metrics_mem
  split
  · simpa using h
  · rename_i hle
    simp at hle ⊢
    omega

/-- Closed form of repeated saves: the buffer is the suffix of the save
sequence that fits the capacity. -/
theorem foldl_save_metrics_mem (maxM : Nat) (ss : List Metrics) :
    ∀ buf : List Metrics, buf.length ≤ maxM →
      ss.foldl (fun b m => save_metrics_mem b maxM m) buf
        = (buf ++ ss).drop ((buf ++ ss).length - maxM) := by
  induction ss with
  | nil =>
      intro buf h
      simp [Nat.sub_eq_zero_of_le h]
  | cons m ss ih =>
      intro buf h
      rw [List.foldl_cons, ih _ (save_metrics_mem_length_le buf maxM m h)]
      have hsplit : buf ++ m :: ss = (buf ++ [m]) ++ ss := by simp
      rw [hsplit]
      unfold save_metrics_mem
      split
      · rename_i hgt
        have hb : buf.length = maxM := by
          simp at hgt
          omega
        rw [← List.drop_append_of_le_length (by simp), List.drop_drop]
        congr 1
        simp [hb]
        omega
      · rename_i hle
        rfl

/-- Claim C1: over any sequence of saves the in-memory buffer never holds
more than the capacity 1000 snapshots, and after capacity+1 saves from an
empty buffer the first-saved snapshot has been evicted while the remaining
1000 snapshots survive in FIFO order (in particular the most recently
saved one is present). -/
theorem save_metrics_capacity_fifo (m₀ : Metrics) (rest : List Metrics)
    (hlen : rest.length = 1000) (hnotin : m₀ ∉ rest) :
    (∀ ss : List Metrics,
        (ss.foldl (fun b m => save_metrics_mem b 1000 m) []).length ≤ 1000)
    ∧ ((m₀ :: rest).foldl (fun b m => save_metrics_mem b 1000 m) []) = rest
    ∧ m₀ ∉ ((m₀ :: rest).foldl (fun b m => save_metrics_mem b 1000 m) [])
    ∧ ∀ (t : List Metrics) (mlast : Metrics), rest = t ++ [mlast] →
        mlast ∈ ((m₀ :: rest).foldl (fun b m => save_metrics_mem b 1000 m) []) := by
  have h2 : ((m₀ :: rest).foldl (fun b m => save_metrics_mem b 1000 m) []) = rest := by
    rw [foldl_save_metrics_mem 1000 (m₀ :: rest) [] (by simp)]
    have hc : ([] ++ m₀ :: rest).length - 1000 = 1 := by
      simp [hlen]
    rw [hc]
    simp
  refine ⟨?_, h2, ?_, ?_⟩
  · intro ss
    rw [foldl_save_metrics_mem 1000 ss [] (by simp)]
    simp
    omega
  · rw [h2]
    exact hnotin
  · intro t mlast ht
    rw [h2, ht]
    simp

/-- Witness for C1: a concrete sequence of 1001 distinct-headed saves
evicts the first snapshot. -/
theorem save_metrics_capacity_fifo_witness :
    mkSnap 0 ∉ ((mkSnap 0 :: (List.replicate 999 (mkSnap 1) ++ [mkSnap 2])).foldl
      (fun b m => save_metrics_mem b 1000 m) []) :=
  (save_metrics_capacity_fifo (mkSnap 0) (List.replicate 999 (mkSnap 1) ++ [mkSnap 2])
    (by rw [List.length_append, List.length_replicate]; rfl)
    (by
      rw [List.mem_append]
      push_neg
      refine ⟨fun hmem => ?_, by simp [mkSnap]⟩
      have hq := List.eq_of_mem_replicate hmem
      simp [mkSnap] at hq)).2.2.1

/-! ## Alert evaluator lemmas -/

/-- On a present metric value the gated check reduces to a conditional
singleton. -/
theorem gatedAlert_some {α : Type} (x d : α) (p : α → Prop) [DecidablePred p]
    (mk : α → Alert) (key : String) :
    gatedAlert (some x) d p mk key = .ok (if p x then [mk x] else []) := by
  unfold gatedAlert
  by_cases h : p x <;> simp [h]

/-- Membership in a conditional singleton. -/
theorem mem_ite_singleton (c : Prop) [Decidable c] (x y : Alert) :
    y ∈ (if c then [x] else []) ↔ c ∧ y = x := by
  by_cases h : c <;> simp [h]

/-- A conditional singleton is a sublist of the singleton. -/
theorem ite_singleton_sublist (c : Prop) [Decidable c] (x : Alert) :
    (if c then [x] else []).Sublist [x] := by
  by_cases h : c <;> simp [h]

/-- Claim C2: on a snapshot whose four monitored metrics are present,
`check_alerts` depends only on the thresholds, succeeds, contains each
alert iff the metric strictly exceeds its threshold, and lists the fired
alerts in the fixed order connections, cpu, memory, disk. -/
theorem check_alerts_spec (st : MonitorState) (m : Metrics) (cv : Int) (cp mv dv : ℚ)
    (hc : m.database.connections = some cv) (hcpu : m.system.cpu_percent = some cp)
    (hm : m.system.memory_percent = some mv) (hd : m.system.disk_percent = some dv) :
    ∃ l : List Alert, check_alerts st m = .ok l
      ∧ (∀ st' : MonitorState, st'.alert_thresholds = st.alert_thresholds →
            check_alerts st' m = check_alerts st m)
      ∧ (Alert.highConnections cv ∈ l ↔ cv > st.alert_thresholds.connection_count)
      ∧ (Alert.highCpu cp ∈ l ↔ cp > st.alert_thresholds.cpu_usage)
      ∧ (Alert.highMemory mv ∈ l ↔ mv > st.alert_thresholds.memory_usage)
      ∧ (Alert.highDisk dv ∈ l ↔ dv > st.alert_thresholds.disk_usage)
      ∧ l.Sublist [Alert.highConnections cv, Alert.highCpu cp, Alert.highMemory mv,
          Alert.highDisk dv] := by
  refine ⟨(if cv > st.alert_thresholds.connection_count
              then [Alert.highConnections cv] else [])
          ++ ((if cp > st.alert_thresholds.cpu_usage then [Alert.highCpu cp] else [])
          ++ ((if mv > st.alert_thresholds.memory_usage then [Alert.highMemory mv] else [])
          ++ (if dv > st.alert_thresholds.disk_usage then [Alert.highDisk dv] else []))),
      ?_, ?_, ?_, ?_, ?_, ?_, ?_⟩
  · simp only [check_alerts, hc, hcpu, hm, hd, gatedAlert_some]
    simp [List.append_assoc]
  · intro st' h'
    simp only [check_alerts, h']
  · simp only [List.mem_append, mem_ite_singleton]
    simp
  · simp only [List.mem_append, mem_ite_singleton]
    simp
  · simp only [List.mem_append, mem_ite_singleton]
    simp
  · simp only [List.mem_append, mem_ite_singleton]
    simp
  · exact List.Sublist.append (ite_singleton_sublist _ _)
      (List.Sublist.append (ite_singleton_sublist _ _)
        (List.Sublist.append (ite_singleton_sublist _ _) (ite_singleton_sublist _ _)))

/-- A snapshot breaching the connection and disk thresholds. -/
def alertSnap : Metrics :=
  { timestamp := "t",
    database := { connections := some 101 },
    system := { cpu_percent := some 10, memory_percent := some 10,
                disk_percent := some 95 } }

/-- Witness for C2 at `connections = 101`, `disk = 95`. -/
theorem check_alerts_spec_witness :
    ∃ l : List Alert, check_alerts (initMonitor "logs" true) alertSnap = .ok l
      ∧ (∀ st' : MonitorState,
            st'.alert_thresholds = (initMonitor "logs" true).alert_thresholds →
            check_alerts st' alertSnap = check_alerts (initMonitor "logs" true) alertSnap)
      ∧ (Alert.highConnections 101 ∈ l
          ↔ (101:Int) > (initMonitor "logs" true).alert_thresholds.connection_count)
      ∧ (Alert.highCpu 10 ∈ l
          ↔ (10:ℚ) > (initMonitor "logs" true).alert_thresholds.cpu_usage)
      ∧ (Alert.highMemory 10 ∈ l
          ↔ (10:ℚ) > (initMonitor "logs" true).alert_thresholds.memory_usage)
      ∧ (Alert.highDisk 95 ∈ l
          ↔ (95:ℚ) > (initMonitor "logs" true).alert_thresholds.disk_usage)
      ∧ l.Sublist [Alert.highConnections 101, Alert.highCpu 10, Alert.highMemory 10,
          Alert.highDisk 95] :=
  check_alerts_spec (initMonitor "logs" true) alertSnap 101 10 10 95 rfl rfl rfl rfl

/-- Claim C9: on a degraded snapshot carrying none of the four monitored
metric fields, `check_alerts` with the monitor's default thresholds treats
every missing metric as 0 and returns no alerts. -/
theorem check_alerts_degraded (st : MonitorState) (m : Metrics)
    (hth : st.alert_thresholds = defaultThresholds)
    (h1 : m.database.connections = none) (h2 : m.system.cpu_percent = none)
    (h3 : m.system.memory_percent = none) (h4 : m.system.disk_percent = none) :
    check_alerts st m = .ok [] := by
  simp only [check_alerts, h1, h2, h3, h4, hth, gatedAlert, Option.getD_none]
  norm_num [defaultThresholds]

/-- Witness for C9: the monitor's initial state on a
disconnected-and-degraded snapshot. -/
theorem check_alerts_degraded_witness :
    check_alerts (initMonitor "logs" true) degradedSnap = .ok [] :=
  check_alerts_degraded (initMonitor "logs" true) degradedSnap rfl rfl rfl rfl rfl

/-! ## Collector inversion lemmas -/

/-- A successful database-section construction yields the `connected`
status with connection and uptime fields obtained from `int()` parses of
the (defaulted) server-reported status values. -/
theorem dbSectionOfVars_ok (sv : List (Value × Value)) (n : Nat) (d : DbSection)
    (h : dbSectionOfVars sv n = .ok d) :
    d.status = some "connected"
    ∧ ∃ c u, d.connections = some c ∧ d.uptime = some u
        ∧ pyInt (svGetD sv "Threads_connected" (.vInt 0)) = .ok c
        ∧ pyInt (svGetD sv "Uptime" (.vInt 0)) = .ok u := by
  unfold dbSectionOfVars at h
  split at h
  next e h1 => simp at h
  next conn h1 =>
    split at h
    next e h2 => simp at h
    next qps h2 =>
      split at h
      next e h3 => simp at h
      next slow h3 =>
        split at h
        next e h4 => simp at h
        next up h4 =>
          split at h
          next e h5 => simp at h
          next bpd h5 =>
            split at h
            next e h6 => simp at h
            next bpt h6 =>
              simp only [Except.ok.injEq] at h
              subst h
              exact ⟨rfl, conn, up, rfl, rfl, h1, h4⟩

/-- A successful collection run ends with open-and-closed session flags
and a database section produced by `dbSectionOfVars` over the accumulated
status variables. -/
theorem collectTry_ok (env : DbEnv) (d : DbSection) (o c : Bool)
    (h : collectTry env = .ok (d, o, c)) :
    o = true ∧ c = true
    ∧ ∃ pl, processlistStep env.showProcesslist = .ok pl
        ∧ dbSectionOfVars (statusVarsOf env) pl.length = .ok d := by
  unfold collectTry at h
  split at h
  next hcon =>
    split at h
    next e h1 => simp at h
    next a h1 =>
      split at h
      next e h2 => simp at h
      next plist h2 =>
        split at h
        next e h3 => simp at h
        next u h3 =>
          split at h
          next e h4 => simp at h
          next dbFull h4 =>
            split at h
            next h5 =>
              simp only [Except.ok.injEq, Prod.mk.injEq] at h
              obtain ⟨rfl, rfl, rfl⟩ := h
              exact ⟨rfl, rfl, plist, h2, h4⟩
            next e h5 => simp at h
  next hcon => simp at h

/-- Every exception raised inside the collection body leaves the session
unclosed. -/
theorem collectTry_error_unclosed (env : DbEnv) (e : Exc) (d : DbSection) (o c : Bool)
    (h : collectTry env = .error (e, d, o, c)) : c = false := by
  unfold collectTry at h
  repeat' split at h
  all_goals simp_all

/-- Claim C3: `get_database_metrics` never propagates an exception — any
exception raised by the collection body is converted into a returned
snapshot with a degraded status and the exception's message in the
`error` field, and in particular a connection failure yields
`status = "disconnected"` with the connect error message. -/
theorem get_database_metrics_no_raise (env : DbEnv) :
    (∀ e d o c, collectTry env = .error (e, d, o, c) →
        ((get_database_metrics env).metrics.database.status = some "disconnected"
          ∨ (get_database_metrics env).metrics.database.status = some "error")
        ∧ (get_database_metrics env).metrics.database.error = some (excMsg e))
    ∧ (env.connectOk = false →
        (get_database_metrics env).metrics.database.status = some "disconnected"
        ∧ (get_database_metrics env).metrics.database.error
            = some "Failed to connect to database") := by
  constructor
  · intro e d o c h
    simp only [get_database_metrics, h]
    by_cases hm : isMySQLError e = true
    · simp [hm, degradeSection]
    · simp [hm, degradeSection]
  · intro h
    have hce : collectTry env
        = .error (.mysqlError "Failed to connect to database", {}, false, false) := by
      unfold collectTry
      simp [h]
    simp only [get_database_metrics, hce]
    simp [isMySQLError, degradeSection, excMsg]

/-- Witness for C3: a failed connection produces the disconnected
snapshot. -/
theorem get_database_metrics_no_raise_witness :
    (get_database_metrics downEnv).metrics.database.status = some "disconnected"
    ∧ (get_database_metrics downEnv).metrics.database.error
        = some "Failed to connect to database" :=
  (get_database_metrics_no_raise downEnv).2 rfl

/-- Claim C5 counterexample: with the server reporting
`Threads_connected = "-1"` the snapshot is `connected` yet carries the
negative connection count unchanged — the code applies no clamping. -/
theorem gdm_nonneg_counterexample :
    (get_database_metrics badStatusEnv).metrics.database.status = some "connected"
    ∧ (get_database_metrics badStatusEnv).metrics.database.connections = some (-1)
    ∧ ¬(0 ≤ (-1 : Int)) :=
  ⟨by decide, by decide, by decide⟩

/-- Claim C5 (amended): every snapshot's status is one of `connected`,
`disconnected`, `error`; when it is `connected` the connections and
uptime fields are present and equal the `int()` parses of the (defaulted)
server-reported status values — hence they are non-negative exactly when
the server-reported values are. -/
theorem gdm_status_invariant (env : DbEnv) :
    ((get_database_metrics env).metrics.database.status = some "connected"
      ∨ (get_database_metrics env).metrics.database.status = some "disconnected"
      ∨ (get_database_metrics env).metrics.database.status = some "error")
    ∧ ((get_database_metrics env).metrics.database.status = some "connected" →
        ∃ c u, (get_database_metrics env).metrics.database.connections = some c
          ∧ (get_database_metrics env).metrics.database.uptime = some u
          ∧ pyInt (svGetD (statusVarsOf env) "Threads_connected" (.vInt 0)) = .ok c
          ∧ pyInt (svGetD (statusVarsOf env) "Uptime" (.vInt 0)) = .ok u) := by
  cases hct : collectTry env with
  | ok r =>
      obtain ⟨d, o, c⟩ := r
      obtain ⟨-, -, pl, hpl, hdb⟩ := collectTry_ok env d o c hct
      obtain ⟨hst, cv, uv, hcv, huv, hpc, hpu⟩ := dbSectionOfVars_ok _ _ _ hdb
      simp only [get_database_metrics, hct]
      exact ⟨Or.inl hst, fun _ => ⟨cv, uv, hcv, huv, hpc, hpu⟩⟩
  | error r =>
      obtain ⟨e, d, o, c⟩ := r
      simp only [get_database_metrics, hct]
      by_cases hm : isMySQLError e = true
      · simp only [hm, if_true]
        refine ⟨Or.inr (Or.inl ?_), fun hcon => absurd hcon (by simp [degradeSection])⟩
        simp [degradeSection]
      · simp only [hm, if_false]
        refine ⟨Or.inr (Or.inr ?_), fun hcon => absurd hcon (by simp [degradeSection])⟩
        simp [degradeSection]

/-- Witness for C5 (amended): a healthy environment reporting
`Threads_connected = "5"` and `Uptime = "7"`. -/
theorem gdm_status_invariant_witness :
    ∃ c u, (get_database_metrics goodEnv).metrics.database.connections = some c
      ∧ (get_database_metrics goodEnv).metrics.database.uptime = some u
      ∧ pyInt (svGetD (statusVarsOf goodEnv) "Threads_connected" (.vInt 0)) = .ok c
      ∧ pyInt (svGetD (statusVarsOf goodEnv) "Uptime" (.vInt 0)) = .ok u :=
  (gdm_status_invariant goodEnv).2 (by decide)

/-- Claim C7 counterexample: when the connection opens and `SHOW STATUS`
then raises a non-`Error` exception, `get_database_metrics` returns its
`error` snapshot with the session it opened left unclosed (there is no
`finally` around the collection body). -/
theorem gdm_session_leak_counterexample :
    (get_database_metrics leakEnv).sessionOpened = true
    ∧ (get_database_metrics leakEnv).sessionClosed = false
    ∧ (get_database_metrics leakEnv).metrics.database.status = some "error" :=
  ⟨by decide, by decide, by decide⟩

/-- Claim C7 (amended): `get_database_metrics` closes the session it
opened only on the fully successful path; whenever the collection body
raises, the handler returns the degraded snapshot without the session
having been closed. -/
theorem gdm_session_amended (env : DbEnv) :
    (∀ r, collectTry env = .ok r →
        (get_database_metrics env).sessionOpened = true
        ∧ (get_database_metrics env).sessionClosed = true)
    ∧ (∀ e d o c, collectTry env = .error (e, d, o, c) →
        (get_database_metrics env).sessionClosed = false) := by
  constructor
  · intro r h
    obtain ⟨d, o, c⟩ := r
    obtain ⟨ho, hc, -⟩ := collectTry_ok env d o c h
    simp only [get_database_metrics, h]
    exact ⟨ho, hc⟩
  · intro e d o c h
    have hc := collectTry_error_unclosed env e d o c h
    simp only [get_database_metrics, h]
    by_cases hm : isMySQLError e = true
    · simp [hm, hc]
    · simp [hm, hc]

/-- Witness for C7 (amended): the healthy environment both opens and
closes its session. -/
theorem gdm_session_amended_witness :
    (get_database_metrics goodEnv).sessionOpened = true
    ∧ (get_database_metrics goodEnv).sessionClosed = true :=
  (gdm_session_amended goodEnv).1 _ rfl

/-! ## Monitor loop lemmas -/

/-- Whatever happens inside one iteration body, the resulting state agrees
with the input state on everything except the metrics buffer. -/
theorem monitorIterBody_state (st : MonitorState) (env : IterEnv) :
    (∀ st', monitorIterBody st env = .ok st' →
        st'.monitoring = st.monitoring ∧ st'.alert_thresholds = st.alert_thresholds)
    ∧ (∀ e st', monitorIterBody st env = .error (e, st') →
        st'.monitoring = st.monitoring ∧ st'.alert_thresholds = st.alert_thresholds) := by
  constructor
  · intro st' h
    unfold monitorIterBody at h
    dsimp only at h
    cases hca : check_alerts st (get_database_metrics env.dbEnv).metrics with
    | error e2 => rw [hca] at h; simp at h
    | ok al =>
      rw [hca] at h
      cases hsf : env.saveFileExc with
      | some e2 => rw [hsf] at h; simp at h
      | none =>
        rw [hsf] at h
        cases hls : logSummary (get_database_metrics env.dbEnv).metrics with
        | error e2 => rw [hls] at h; simp at h
        | ok u =>
          rw [hls] at h
          simp only [Except.ok.injEq] at h
          subst h
          simp [save_metrics]
  · intro e st' h
    unfold monitorIterBody at h
    dsimp only at h
    cases hca : check_alerts st (get_database_metrics env.dbEnv).metrics with
    | error e2 =>
      rw [hca] at h
      simp only [Except.error.injEq, Prod.mk.injEq] at h
      obtain ⟨-, rfl⟩ := h
      exact ⟨rfl, rfl⟩
    | ok al =>
      rw [hca] at h
      cases hsf : env.saveFileExc with
      | some e2 =>
        rw [hsf] at h
        simp only [Except.error.injEq, Prod.mk.injEq] at h
        obtain ⟨-, rfl⟩ := h
        simp [save_metrics]
      | none =>
        rw [hsf] at h
        cases hls : logSummary (get_database_metrics env.dbEnv).metrics with
        | error e2 =>
          rw [hls] at h
          simp only [Except.error.injEq, Prod.mk.injEq] at h
          obtain ⟨-, rfl⟩ := h
          simp [save_metrics]
        | ok u => rw [hls] at h; simp at h

/-- One caught iteration preserves the monitoring flag and thresholds. -/
theorem monitor_iter_state (st : MonitorState) (env : IterEnv) (interval : Nat) :
    (monitor_iter st env interval).1.monitoring = st.monitoring
    ∧ (monitor_iter st env interval).1.alert_thresholds = st.alert_thresholds := by
  unfold monitor_iter
  cases hb : monitorIterBody st env with
  | ok st' =>
      simpa using (monitorIterBody_state st env).1 st' hb
  | error p =>
      obtain ⟨e, st'⟩ := p
      simpa using (monitorIterBody_state st env).2 e st' hb

/-- The loop preserves the thresholds across any schedule. -/
theorem monitor_loop_thresholds (envs : List IterEnv) :
    ∀ (st : MonitorState) (interval : Nat),
      (monitor_loop st envs interval).1.alert_thresholds = st.alert_thresholds := by
  induction envs with
  | nil => intro st interval; rfl
  | cons e rest ih =>
      intro st interval
      unfold monitor_loop
      by_cases hm : st.monitoring
      · simp only [hm, if_true]
        rw [ih]
        exact (monitor_iter_state st e interval).2
      · simp [hm]

/-- Claim C4: each loop iteration sleeps exactly the constant interval on
both the success and the failure path; an exception inside one iteration
is caught (the iteration still returns a state and the same sleep); and
while the monitoring flag is set the loop executes every scheduled
iteration regardless of failures. -/
theorem monitor_loop_resilient :
    (∀ (st : MonitorState) (env : IterEnv) (interval : Nat),
        (monitor_iter st env interval).2 = interval)
    ∧ (∀ (st : MonitorState) (env : IterEnv) (interval : Nat) (e : Exc)
          (st' : MonitorState),
        monitorIterBody st env = .error (e, st') →
        monitor_iter st env interval = (st', interval))
    ∧ (∀ (st : MonitorState) (envs : List IterEnv) (interval : Nat),
        st.monitoring = true → (monitor_loop st envs interval).2 = envs.length) := by
  refine ⟨?_, ?_, ?_⟩
  · intro st env interval
    unfold monitor_iter
    cases hb : monitorIterBody st env with
    | ok st' => rfl
    | error p => rfl
  · intro st env interval e st' h
    unfold monitor_iter
    rw [h]
  · intro st envs interval
    induction envs generalizing st with
    | nil => intro hm; rfl
    | cons e rest ih =>
        intro hm
        unfold monitor_loop
        simp only [hm, if_true]
        have hpres : (monitor_iter st e interval).1.monitoring = true := by
          rw [(monitor_iter_state st e interval).1]
          exact hm
        rw [ih _ hpres]
        simp

/-- Witness for C4: a concrete iteration whose summary step raises (the
system-metrics provider failed, so `:.1f` formatting faults) is caught,
sleeps the same 60-second interval, and a two-iteration schedule still
runs both iterations. -/
theorem monitor_loop_resilient_witness :
    monitor_iter (initMonitor "logs" true) sysFailIterEnv 60
      = (save_metrics (initMonitor "logs" true)
          (get_database_metrics sysFailIterEnv.dbEnv).metrics, 60)
    ∧ (monitor_loop (initMonitor "logs" true) [sysFailIterEnv, sysFailIterEnv] 60).2 = 2 :=
  ⟨monitor_loop_resilient.2.1 (initMonitor "logs" true) sysFailIterEnv 60
      (.valueError "Unknown format code f for object of type str")
      (save_metrics (initMonitor "logs" true)
        (get_database_metrics sysFailIterEnv.dbEnv).metrics)
      (by decide),
   monitor_loop_resilient.2.2 (initMonitor "logs" true) [sysFailIterEnv, sysFailIterEnv]
      60 rfl⟩

/-! ## Thresholds -/

/-- Claim C8 counterexample: the constructor's only parameter is the log
directory; every construction produces the same hardcoded threshold set,
so thresholds are not a configurable construction parameter. -/
theorem thresholds_not_configurable_counterexample :
    (initMonitor "logs" true).alert_thresholds
      = (initMonitor "custom_dir" true).alert_thresholds
    ∧ (initMonitor "custom_dir" true).alert_thresholds = defaultThresholds :=
  ⟨rfl, rfl⟩

/-- Claim C8 (amended): the threshold set is fixed to the hardcoded
defaults by the constructor (whatever its arguments), and no monitor
operation mutates it afterwards. -/
theorem thresholds_immutable (dir : String) (mk : Bool) (st : MonitorState)
    (m : Metrics) (env : IterEnv) (interval : Nat) (envs : List IterEnv)
    (q : String) (qt : ℚ) (r : Int) :
    (initMonitor dir mk).alert_thresholds = defaultThresholds
    ∧ (save_metrics st m).alert_thresholds = st.alert_thresholds
    ∧ ((log_query st q qt r).2).alert_thresholds = st.alert_thresholds
    ∧ (start_monitoring st).alert_thresholds = st.alert_thresholds
    ∧ (stop_monitoring st).alert_thresholds = st.alert_thresholds
    ∧ (monitor_iter st env interval).1.alert_thresholds = st.alert_thresholds
    ∧ (monitor_loop st envs interval).1.alert_thresholds = st.alert_thresholds :=
  ⟨rfl, rfl, rfl, rfl, rfl, (monitor_iter_state st env interval).2,
   monitor_loop_thresholds envs st interval⟩

/-! ## Profiler lemmas -/

/-- A plan row whose extracted index key is null always contributes the
no-index suggestion, whatever its other fields. -/
theorem rowSuggestions_noIndex (r : Row) (sel key rv : Value)
    (hf : planRowFields r = some (sel, key, rv)) (hk : key = Value.vNull) :
    Suggestion.noIndex ∈ rowSuggestions r := by
  unfold rowSuggestions
  rw [hf]
  subst hk
  cases hrc : rowsCheck rv <;> simp [hrc]

/-- Claim C6: suggestion generation is a pure function of the query text
and plan — a query whose uppercased text contains `SELECT *` always
yields the avoid-`SELECT *` suggestion whatever the plan holds, and every
plan row whose index key is null yields the no-index suggestion. -/
theorem suggestions_spec (q : String) (t : ℚ) (plan : List Row) :
    (strContains (pyUpper q) "SELECT *" = true →
      Suggestion.selectStar ∈ get_optimization_suggestions q t plan)
    ∧ (∀ r ∈ plan, ∀ sel key rv, planRowFields r = some (sel, key, rv) →
        key = Value.vNull →
        Suggestion.noIndex ∈ get_optimization_suggestions q t plan) := by
  constructor
  · intro h
    unfold get_optimization_suggestions
    simp [h]
  · intro r hr sel key rv hf hk
    have hmem := rowSuggestions_noIndex r sel key rv hf hk
    unfold get_optimization_suggestions
    simp only [List.mem_append, List.mem_flatten]
    refine Or.inl (Or.inl (Or.inl (Or.inr ?_)))
    exact ⟨rowSuggestions r, List.mem_map_of_mem rowSuggestions hr, hmem⟩

/-- A one-row EXPLAIN plan whose `key` entry is null. -/
def planNoIdx : List Row := [Row.dictRow [("key", Value.vNull)]]

/-- Witness for C6: `SELECT * FROM t` over a null-key plan row yields
both suggestions. -/
theorem suggestions_spec_witness :
    Suggestion.selectStar ∈ get_optimization_suggestions "SELECT * FROM t" 0 planNoIdx
    ∧ Suggestion.noIndex ∈ get_optimization_suggestions "SELECT * FROM t" 0 planNoIdx :=
  ⟨(suggestions_spec "SELECT * FROM t" 0 planNoIdx).1 (by decide),
   (suggestions_spec "SELECT * FROM t" 0 planNoIdx).2
     (Row.dictRow [("key", Value.vNull)]) (by decide)
     (Value.vStr "") Value.vNull (Value.vInt 0) (by decide) rfl⟩

/-- Claim C10: once `profile_query` has opened its connection, every exit
path — body success, failure of any profiling step, even an exception
superseded by `disconnect` — runs the `finally` block, which attempts
`SET profiling = 0` and calls `disconnect`. -/
theorem profile_query_cleanup (env : ProfEnv) (q : String) (h : env.connectOk = true) :
    (profile_query env q).2.opened = true
    ∧ (profile_query env q).2.profilingOffAttempted = true
    ∧ (profile_query env q).2.disconnectAttempted = true := by
  unfold profile_query
  rw [h]
  cases hd : env.disconnectExc with
  | some e => exact ⟨rfl, rfl, rfl⟩
  | none =>
      cases hb : profileBody env q with
      | ok r => exact ⟨rfl, rfl, rfl⟩
      | error e => exact ⟨rfl, rfl, rfl⟩

/-- Witness for C10: a connected profiler run whose profiled query raises
still performs both cleanup steps. -/
theorem profile_query_cleanup_witness :
    (profile_query profFailEnv "SELECT 1").2.opened = true
    ∧ (profile_query profFailEnv "SELECT 1").2.profilingOffAttempted = true
    ∧ (profile_query profFailEnv "SELECT 1").2.disconnectAttempted = true :=
  profile_query_cleanup profFailEnv "SELECT 1" rfl

end MysqlMonitor
